import Mathlib

/-!
# Verification of the MaxBuildsXJ single-page site core

A shallow embedding of the hash-based client-side router and the
page-composition logic of `src/App.jsx`, together with the static content
data the views render. The router (`useRoute`) keeps a route string derived
from the browser's address fragment; the composer (the route-conditional
rendering in `App`) selects exactly one of six static views from that
string.
-/

/- ------------------ SITE CONFIG / DATA ------------------ -/

/-- One factory-document record, as in the `FACTORY_DOCS` array literal of
`App.jsx` (fields `id`, `name`, `url`, `size`, `notes`). -/
structure Doc where
  id : Nat
  name : String
  url : String
  size : String
  notes : String
deriving DecidableEq, Repr

/-- The static factory-documents array (`App.jsx` lines 45-48). -/
def FACTORY_DOCS : List Doc :=
  [ ⟨1, "Factory Service Manual - 1997 XJ.pdf", "/factory-docs/1997-xj-service-manual.pdf", "8.2 MB", "Scanned."⟩,
    ⟨2, "Wiring Diagrams - Full.pdf", "/factory-docs/wiring-diagrams.pdf", "3.9 MB", "Color scan."⟩ ]

/-- One gallery record, as in the `GALLERY` array literal of `App.jsx`
(fields `id`, `title`, `src`). -/
structure GalleryItem where
  id : Nat
  title : String
  src : String
deriving DecidableEq, Repr

/-- The static gallery array (`App.jsx` lines 50-54). -/
def GALLERY : List GalleryItem :=
  [ ⟨1, "1968 AMX swap fitment", "/images/build-1.jpg"⟩,
    ⟨2, "Roll cage mockup", "/images/build-2.jpg"⟩,
    ⟨3, "Trail ready XJ", "/images/build-3.jpg"⟩ ]

/-- The `FactoryDocuments` component's rendered list: its `useState(docs)`
initializes the list state to the `docs` prop, whose default is
`FACTORY_DOCS`, and its `useEffect` body is empty (the fetch is only a
comment), so the rendered list is exactly `FACTORY_DOCS`. -/
def factoryDocumentsList : List Doc := FACTORY_DOCS

/-- The `GalleryPage` component renders `GALLERY.map`, one figure per
entry, so the rendered entries are exactly `GALLERY`. -/
def galleryPageEntries : List GalleryItem := GALLERY

/- ------------------ Tiny Router ------------------ -/

/-- `replace('#', '')` on the character list: JavaScript's
`String.prototype.replace` with a string pattern replaces only the first
occurrence, here deleting the first `'#'` character if any. -/
def stripFirstHash : List Char → List Char
  | [] => []
  | c :: cs => if c = '#' then cs else c :: stripFirstHash cs

/-- `hash.replace('#', '')` as used in `useRoute`. -/
def replaceFirstHash (s : String) : String :=
  ⟨stripFirstHash s.data⟩

/-- `window.location.hash.replace('#', '') || '/'` (`App.jsx` lines 58 and
60): the route derived from a hash string — strip the first `'#'`, and
substitute `"/"` when the result is empty (the empty string is falsy, so
`|| '/'` yields `"/"` exactly then). -/
def hashToRoute (h : String) : String :=
  let s := replaceFirstHash h
  if s = "" then "/" else s

/-- The navigation state held by `useRoute`: the current route string. -/
structure NavState where
  route : String
deriving DecidableEq, Repr

/-- Store initialization (`useState(window.location.hash.replace('#','') || '/')`,
line 58): the initial route is derived from the hash at construction. -/
def initNav (h : String) : NavState :=
  ⟨hashToRoute h⟩

/-- The `onHash` handler (line 60) plus React's state-update semantics:
`setRoute` with the derived route. The resulting state value is the derived
route either way; the boolean records whether subscribers are re-rendered,
which React does exactly when the new state value differs from the current
one (it bails out on an identical value). -/
def routeUpdate (s : NavState) (h : String) : NavState × Bool :=
  let r := hashToRoute h
  if r = s.route then (⟨r⟩, false) else (⟨r⟩, true)

/-- The router-visible world: the environment-owned hash string plus the
store state. -/
structure SystemState where
  hash : String
  nav : NavState
deriving DecidableEq, Repr

/-- Modelled from the spec: the address fragment is owned by the hosting
environment. Assigning `window.location.hash = t` (the body of `nav`,
line 64) sets the hash to `t` with a `"#"` prepended when absent; assigning
the empty string clears the fragment, and the hash getter then returns
`""`. -/
def assignHash (t : String) : String :=
  if t = "" then ""
  else
    match t.data with
    | '#' :: _ => t
    | _ => "#" ++ t

/-- `nav(to)` (line 64) followed by the environment's fragment-change
delivery: the hash is assigned; a `hashchange` notification is delivered
to `onHash` only when the hash actually changed, and subscribers observe a
re-render (the returned boolean) only when the derived route differs from
the current one. -/
def navigate (s : SystemState) (t : String) : SystemState × Bool :=
  let h := assignHash t
  if h = s.hash then (s, false)
  else
    let p := routeUpdate s.nav h
    ({ hash := h, nav := p.1 }, p.2)

/- ------------------ Page Composer ------------------ -/

/-- The six views the route-conditional rendering in `App` can select. -/
inductive View where
  | home
  | builds
  | gallery
  | documents
  | contact
  | notFound
deriving DecidableEq, Repr

/-- The closed route set of the fallback guard
`!['/','/builds','/gallery','/docs','/contact'].includes(route)`
(`App.jsx` line 342). -/
def ROUTES : List String := ["/", "/builds", "/gallery", "/docs", "/contact"]

/-- The guard condition of each view in `App` (lines 318-342): five
equality guards `route === '...'` and the catch-all
`!ROUTES.includes(route)`. -/
def viewActive (route : String) : View → Bool
  | .home => route == "/"
  | .builds => route == "/builds"
  | .gallery => route == "/gallery"
  | .documents => route == "/docs"
  | .contact => route == "/contact"
  | .notFound => !(ROUTES.contains route)

/-- All six views, in the order they appear in `App`. -/
def allViews : List View :=
  [.home, .builds, .gallery, .documents, .contact, .notFound]

/-- The views actually rendered for a route: `App` renders each view whose
guard condition holds. -/
def activeViews (route : String) : List View :=
  allViews.filter (viewActive route)

/-- The composer as a single function: the same guards read sequentially,
ending in the catch-all. -/
def composer (route : String) : View :=
  if route = "/" then .home
  else if route = "/builds" then .builds
  else if route = "/gallery" then .gallery
  else if route = "/docs" then .documents
  else if route = "/contact" then .contact
  else .notFound

/- ------------------ Helper lemmas ------------------ -/

/-- The derived route is never the empty string: the `|| '/'` default
replaces an empty fragment. -/
theorem hashToRoute_ne_empty (h : String) : hashToRoute h ≠ "" := by
  unfold hashToRoute
  dsimp only
  split
  · intro hc
    exact absurd hc (by decide)
  · assumption

/-- The independent guards of `App` are mutually exclusive and exhaustive:
for every route string the rendered views are exactly the one the
sequential composer selects. -/
theorem activeViews_eq_composer (r : String) : activeViews r = [composer r] := by
  by_cases h1 : r = "/"
  · subst h1; decide
  by_cases h2 : r = "/builds"
  · subst h2; decide
  by_cases h3 : r = "/gallery"
  · subst h3; decide
  by_cases h4 : r = "/docs"
  · subst h4; decide
  by_cases h5 : r = "/contact"
  · subst h5; decide
  have b1 : (r == "/") = false := beq_eq_false_iff_ne.mpr h1
  have b2 : (r == "/builds") = false := beq_eq_false_iff_ne.mpr h2
  have b3 : (r == "/gallery") = false := beq_eq_false_iff_ne.mpr h3
  have b4 : (r == "/docs") = false := beq_eq_false_iff_ne.mpr h4
  have b5 : (r == "/contact") = false := beq_eq_false_iff_ne.mpr h5
  have hmem : r ∉ ROUTES := by
    intro hc
    simp only [ROUTES, List.mem_cons, List.mem_singleton, List.not_mem_nil] at hc
    rcases hc with hc | hc | hc | hc | hc | hc
    · exact h1 hc
    · exact h2 hc
    · exact h3 hc
    · exact h4 hc
    · exact h5 hc
    · exact hc
  simp [activeViews, allViews, List.filter, viewActive, composer,
    b1, b2, b3, b4, b5, hmem, h1, h2, h3, h4, h5]

/-- What `navigate` does in terms of the resolved route: assuming the
store's route is in sync with the hash (which holds in every reachable
state), a navigation whose target resolves to a different route delivers
exactly one notification and leaves the resolved route current, while one
that resolves to the current route delivers none and leaves the store
unchanged. -/
theorem navigate_resolved (s : SystemState) (t : String)
    (hsync : s.nav.route = hashToRoute s.hash) :
    (hashToRoute (assignHash t) ≠ s.nav.route →
      navigate s t = (⟨assignHash t, ⟨hashToRoute (assignHash t)⟩⟩, true)) ∧
    (hashToRoute (assignHash t) = s.nav.route →
      (navigate s t).2 = false ∧ (navigate s t).1.nav = s.nav) := by
  constructor
  · intro hne
    have hhash : assignHash t ≠ s.hash := by
      intro he
      exact hne (by rw [he, ← hsync])
    unfold navigate routeUpdate
    rw [if_neg hhash, if_neg hne]
  · intro heq
    by_cases hhash : assignHash t = s.hash
    · unfold navigate
      rw [if_pos hhash]
      exact ⟨rfl, rfl⟩
    · unfold navigate routeUpdate
      rw [if_neg hhash, if_pos heq]
      refine ⟨rfl, ?_⟩
      show (⟨hashToRoute (assignHash t)⟩ : NavState) = s.nav
      rw [heq]

/- ------------------ Reachable store states ------------------ -/

/-- The states the navigation store can be in: it is initialized once from
the hash at construction, and thereafter mutated only by the `onHash`
handler reacting to a (possibly arbitrary, user-typed) hash string. -/
inductive Reachable : NavState → Prop where
  | ini : ∀ h, Reachable (initNav h)
  | step : ∀ s h, Reachable s → Reachable (routeUpdate s h).1

/- ------------------ Subscription lifecycle ------------------ -/

/-- `window.addEventListener('hashchange', onHash)` (line 61): registers
the handler, here identified by a numeric id, at the end of the listener
list. The `useEffect` has an empty dependency array, so this runs exactly
once, when the store is initialized. -/
def addHashListener (ls : List Nat) (h : Nat) : List Nat :=
  ls ++ [h]

/-- The effect cleanup
`() => window.removeEventListener('hashchange', onHash)` (line 62): run at
store teardown, it removes the registration matching the very handler that
was added (the DOM removes the matching entry; each mounted store has a
fresh handler closure). -/
def removeHashListener (ls : List Nat) (h : Nat) : List Nat :=
  ls.erase h

/- ------------------ Contact form ------------------ -/

/-- One input field of the contact form, with its placeholder text and its
`required` attribute. -/
structure FormField where
  placeholder : String
  required : Bool
deriving DecidableEq, Repr

/-- The three fields of the contact form (`App.jsx` lines 278-280): name,
email and message, each carrying the `required` attribute. -/
def contactFormFields : List FormField :=
  [⟨"Your name", true⟩, ⟨"Your email", true⟩, ⟨"Message", true⟩]

/-- The values a user typed into the three contact-form fields. -/
structure ContactInput where
  name : String
  email : String
  message : String
deriving DecidableEq, Repr

/-- The field values in the order of `contactFormFields`. -/
def fieldValues (i : ContactInput) : List String :=
  [i.name, i.email, i.message]

/-- Modelled from the spec: the hosting environment performs the
client-side presence validation — a form whose fields carry `required`
can only be submitted when every required field is non-empty. -/
def canSubmit (i : ContactInput) : Bool :=
  (contactFormFields.zip (fieldValues i)).all fun p => !p.1.required || !(p.2 == "")

/-- All data the application holds: the navigation store plus the static
content arrays. -/
structure AppState where
  nav : NavState
  docs : List Doc
  gallery : List GalleryItem
deriving DecidableEq, Repr

/-- The contact form's submit handler
`(e)=>{ e.preventDefault(); alert('Replace this handler with a real endpoint'); }`
(line 277): it prevents the default submission and shows a placeholder
alert; it issues no network request and changes no state. The result pairs
the (unchanged) application state with the list of network requests issued
(none). -/
def submitContact (s : AppState) (_i : ContactInput) : AppState × List String :=
  (s, [])

/- ------------------ Claim theorems ------------------ -/

/-- Claim C1: for every route string in the closed set the composer selects
exactly the corresponding view (home, builds, gallery, documents, contact);
for every string outside the set it selects the "not found" view and none
of the five named views. -/
theorem composer_closed_set_and_fallback :
    (activeViews "/" = [View.home] ∧ activeViews "/builds" = [View.builds] ∧
     activeViews "/gallery" = [View.gallery] ∧ activeViews "/docs" = [View.documents] ∧
     activeViews "/contact" = [View.contact]) ∧
    ∀ r : String, r ∉ ROUTES → activeViews r = [View.notFound] := by
  refine ⟨⟨by decide, by decide, by decide, by decide, by decide⟩, ?_⟩
  intro r hr
  rw [activeViews_eq_composer]
  have h1 : r ≠ "/" := fun e => hr (by rw [e]; decide)
  have h2 : r ≠ "/builds" := fun e => hr (by rw [e]; decide)
  have h3 : r ≠ "/gallery" := fun e => hr (by rw [e]; decide)
  have h4 : r ≠ "/docs" := fun e => hr (by rw [e]; decide)
  have h5 : r ≠ "/contact" := fun e => hr (by rw [e]; decide)
  simp [composer, h1, h2, h3, h4, h5]

/-- Witness for C1: the arbitrary string `"/unknown-page"` is outside the
closed set and resolves to the "not found" view alone. -/
theorem composer_fallback_witness :
    "/unknown-page" ∉ ROUTES ∧ activeViews "/unknown-page" = [View.notFound] :=
  ⟨by decide, composer_closed_set_and_fallback.2 "/unknown-page" (by decide)⟩

/-- Counterexample to C2 as stated: from the state with hash `"#/"` and
route `"/"`, calling `navigate("")` with a target that differs from the
prior route (`"" ≠ "/"`) delivers no notification and leaves the route at
`"/"`, not at the target — because the empty fragment resolves to the same
logical route `"/"`. -/
theorem navigate_literal_target_counterexample :
    ("" : String) ≠ "/" ∧
    (navigate ⟨"#/", ⟨"/"⟩⟩ "").2 = false ∧
    (navigate ⟨"#/", ⟨"/"⟩⟩ "").1.nav.route = "/" := by
  decide

/-- Claim C2 (amended): in a state whose route is in sync with the hash,
`navigate(target)` delivers exactly one notification and makes the route
the target's resolved route (the target's fragment run through the
empty-to-"/" substitution) when that resolved route differs from the prior
route; when the resolved route equals the prior route, no notification is
delivered and the store is unchanged. -/
theorem navigate_notification_per_resolved_route (s : SystemState) (t : String)
    (hsync : s.nav.route = hashToRoute s.hash) :
    (hashToRoute (assignHash t) ≠ s.nav.route →
      (navigate s t).2 = true ∧
      (navigate s t).1.nav.route = hashToRoute (assignHash t)) ∧
    (hashToRoute (assignHash t) = s.nav.route →
      (navigate s t).2 = false ∧ (navigate s t).1.nav = s.nav) := by
  refine ⟨fun hne => ?_, (navigate_resolved s t hsync).2⟩
  rw [(navigate_resolved s t hsync).1 hne]
  exact ⟨rfl, rfl⟩

/-- Witness for C2 (amended): from hash `""` and route `"/"`, navigating to
`"/gallery"` notifies once and yields that route. -/
theorem navigate_notification_witness :
    hashToRoute (assignHash "/gallery") ≠
      (⟨"", ⟨"/"⟩⟩ : SystemState).nav.route ∧
    (navigate ⟨"", ⟨"/"⟩⟩ "/gallery").2 = true ∧
    (navigate ⟨"", ⟨"/"⟩⟩ "/gallery").1.nav.route =
      hashToRoute (assignHash "/gallery") :=
  ⟨by decide,
   (navigate_notification_per_resolved_route ⟨"", ⟨"/"⟩⟩ "/gallery" (by decide)).1
     (by decide)⟩

/-- Claim C3: a store initialized with an empty address fragment has
current route `"/"`. -/
theorem init_empty_fragment_is_root : (initNav "").route = "/" := by
  decide

/-- Claim C4: for every route string exactly one of the six views is active
— the guard conditions are mutually exclusive and jointly exhaustive, and
the one active view is the composer's selection. -/
theorem exactly_one_view_active (r : String) :
    activeViews r = [composer r] ∧ (activeViews r).length = 1 := by
  refine ⟨activeViews_eq_composer r, ?_⟩
  rw [activeViews_eq_composer r]
  rfl

/-- Claim C5: with fragment `"/docs"` at load, the store starts at route
`"/docs"`, the composer selects the documents view, and that view renders
exactly the two static entries with their declared names and sizes. -/
theorem docs_fragment_renders_static_entries :
    (initNav "#/docs").route = "/docs" ∧
    activeViews "/docs" = [View.documents] ∧
    factoryDocumentsList.map Doc.name =
      ["Factory Service Manual - 1997 XJ.pdf", "Wiring Diagrams - Full.pdf"] ∧
    factoryDocumentsList.map Doc.size = ["8.2 MB", "3.9 MB"] :=
  ⟨by decide, by decide, rfl, rfl⟩

/-- Claim C6: from any in-sync state whose route is not `"/gallery"`,
`navigate("/gallery")` delivers one notification, the route becomes
`"/gallery"`, the composer selects the gallery view, and the gallery view
holds exactly 3 static entries. -/
theorem gallery_navigation_scenario (s : SystemState)
    (hsync : s.nav.route = hashToRoute s.hash)
    (hne : s.nav.route ≠ "/gallery") :
    (navigate s "/gallery").2 = true ∧
    (navigate s "/gallery").1.nav.route = "/gallery" ∧
    activeViews "/gallery" = [View.gallery] ∧
    galleryPageEntries.length = 3 := by
  have hres : hashToRoute (assignHash "/gallery") = "/gallery" := by decide
  have hne2 : hashToRoute (assignHash "/gallery") ≠ s.nav.route := by
    rw [hres]
    exact fun e => hne e.symm
  rw [(navigate_resolved s "/gallery" hsync).1 hne2]
  exact ⟨rfl, hres, by decide, rfl⟩

/-- Witness for C6: the scenario run from hash `""`, route `"/"`. -/
theorem gallery_navigation_witness :
    (navigate ⟨"", ⟨"/"⟩⟩ "/gallery").2 = true ∧
    (navigate ⟨"", ⟨"/"⟩⟩ "/gallery").1.nav.route = "/gallery" ∧
    activeViews "/gallery" = [View.gallery] ∧
    galleryPageEntries.length = 3 :=
  gallery_navigation_scenario ⟨"", ⟨"/"⟩⟩ (by decide) (by decide)

/-- Claim C7: the composer is total — every route string activates some
view drawn from the six defined ones — and the store never rejects a
fragment: the hash handler always results in the route derived from the
given hash, for any string. -/
theorem composer_total_and_store_accepts_all :
    (∀ r : String, activeViews r ≠ [] ∧ composer r ∈ allViews) ∧
    (∀ (s : NavState) (h : String), (routeUpdate s h).1.route = hashToRoute h) := by
  constructor
  · intro r
    constructor
    · rw [activeViews_eq_composer]
      simp
    · rcases hc : composer r with _ | _ | _ | _ | _ | _ <;> decide
  · intro s h
    unfold routeUpdate
    dsimp only
    split <;> rfl

/-- Claim C8: the fragment-change subscription is acquired exactly once at
store initialization (one handler appended) and teardown removes exactly
the handler that was registered, leaving no dangling handler. -/
theorem subscription_scoped_lifecycle (ls : List Nat) (h : Nat) (hfresh : h ∉ ls) :
    (addHashListener ls h).length = ls.length + 1 ∧
    removeHashListener (addHashListener ls h) h = ls ∧
    h ∉ removeHashListener (addHashListener ls h) h := by
  have hrem : removeHashListener (addHashListener ls h) h = ls := by
    unfold addHashListener removeHashListener
    rw [List.erase_append_right _ hfresh]
    simp
  refine ⟨by simp [addHashListener], hrem, ?_⟩
  rw [hrem]
  exact hfresh

/-- Witness for C8: a fresh handler `3` over the listener list `[7]`. -/
theorem subscription_scoped_lifecycle_witness :
    (addHashListener [7] 3).length = [7].length + 1 ∧
    removeHashListener (addHashListener [7] 3) 3 = [7] ∧
    3 ∉ removeHashListener (addHashListener [7] 3) 3 :=
  subscription_scoped_lifecycle [7] 3 (by decide)

/-- Claim C9: every contact-form field is marked required and submission is
only possible when all of them are non-empty (client-side presence
validation); the submit handler discards the input — it changes no state
and issues no network request. -/
theorem contact_submit_validates_and_discards :
    (∀ f ∈ contactFormFields, f.required = true) ∧
    (∀ i : ContactInput, canSubmit i = true →
      i.name ≠ "" ∧ i.email ≠ "" ∧ i.message ≠ "") ∧
    (∀ (s : AppState) (i : ContactInput), submitContact s i = (s, [])) := by
  refine ⟨by decide, ?_, fun s i => rfl⟩
  intro i hi
  simp [canSubmit, contactFormFields, fieldValues] at hi
  exact hi

/-- Witness for C9: a concrete non-empty input is submittable, satisfies
the presence conclusions, and is discarded without touching the state. -/
theorem contact_submit_witness :
    (⟨"Your name", true⟩ : FormField).required = true ∧
    (("a" : String) ≠ "" ∧ ("a@b.c" : String) ≠ "" ∧ ("hi" : String) ≠ "") ∧
    submitContact ⟨⟨"/"⟩, FACTORY_DOCS, GALLERY⟩ ⟨"a", "a@b.c", "hi"⟩ =
      (⟨⟨"/"⟩, FACTORY_DOCS, GALLERY⟩, []) :=
  ⟨contact_submit_validates_and_discards.1 _ (by decide),
   contact_submit_validates_and_discards.2.1 ⟨"a", "a@b.c", "hi"⟩ (by decide),
   contact_submit_validates_and_discards.2.2 _ _⟩

/-- Claim C10: in every reachable state of the navigation store the route
is a non-empty string — both the initializer and the hash handler
substitute `"/"` for an empty derived fragment. -/
theorem reachable_route_nonempty (s : NavState) (hs : Reachable s) :
    s.route ≠ "" := by
  induction hs with
  | ini h => exact hashToRoute_ne_empty h
  | step s h _ _ =>
      unfold routeUpdate
      dsimp only
      split <;> exact hashToRoute_ne_empty h

/-- Witness for C10: the store initialized from the empty hash. -/
theorem reachable_route_nonempty_witness : (initNav "").route ≠ "" :=
  reachable_route_nonempty (initNav "") (Reachable.ini "")
